import Mathlib

/-!
Shallow embedding of the EasyPost shipping CLI core
(`src/scripts/cli.ts`, class `EasyPostShippingClient`).

The client orchestrates a two-stage shipping workflow over a JSON state
file: `createShipment` (stage 1) stores a pending shipment with its rate
quotes, `buyLabel` (stage 2) purchases one of those rates, and
`cancelShipment` / `voidLabel` cancel or refund.  External collaborators
(the Shopify order lookup, the EasyPost shipment/buy/refund endpoints)
are passed in as explicit values or functions; the backing file is
threaded explicitly as a value of type `StoreFile`.  TypeScript numbers
are modelled as rationals, thrown `Error`s as `Except String` carrying
the exact message strings the source builds.
-/

/- Decidable equality for `Except` results, so that concrete runs can be
checked by `decide`. -/
deriving instance DecidableEq for Except

/-- Status of a stored shipment (`PendingShipment.status` in the source). -/
inductive ShipStatus where
  | pending
  | purchased
  | voided
deriving DecidableEq, Repr

/-- Destination / origin address (interface `Address` in the source). -/
structure Address where
  name : Option String := none
  company : Option String := none
  street1 : String
  street2 : Option String := none
  city : String
  state : Option String := none
  zip : String
  country : String
  phone : Option String := none
  email : Option String := none
deriving DecidableEq, Repr

/-- Parcel in the caller's canonical units: weight in kilograms,
dimensions in centimeters (interface `Parcel` in the source). -/
structure Parcel where
  length : Option ℚ := none
  width : Option ℚ := none
  height : Option ℚ := none
  weight : ℚ
deriving DecidableEq, Repr

/-- One rate quote (interface `Rate` in the source); the price `rate` is
kept as the decimal string the API returns. -/
structure Rate where
  id : String
  carrier : String
  service : String
  rate : String
  currency : String
  delivery_days : Option Nat := none
  delivery_date : Option String := none
deriving DecidableEq, Repr

/-- A stored shipment record (interface `PendingShipment` in the source). -/
structure PendingShipment where
  id : String
  createdAt : String
  orderId : Option String := none
  toAddress : Address
  fromAddress : Address
  parcel : Parcel
  rates : List Rate
  status : ShipStatus
  trackingCode : Option String := none
  labelUrl : Option String := none
deriving DecidableEq, Repr

/-- The persisted container (interface `ShipmentState` in the source):
`shipments` models the JS `Record<string, PendingShipment>` as an
association list in key-insertion order. -/
structure ShipmentState where
  shipments : List (String × PendingShipment)
  lastUpdated : String
deriving DecidableEq, Repr

/-- The backing file at `STATE_PATH`: `none` means the file is absent,
`some none` means its contents fail to parse, `some (some st)` means it
parses to the state `st`. -/
abbrev StoreFile := Option (Option ShipmentState)

/-- Result type of `cancelShipment` / `voidLabel`
(`{ success: boolean; message: string }` in the source). -/
structure OpResult where
  success : Bool
  message : String
deriving DecidableEq, Repr

/-- Result of a successful purchase (interface `PurchasedLabel`);
`labelUrl` is optional because the source reads
`purchasedShipment.postage_label?.label_url`. -/
structure PurchasedLabel where
  trackingCode : String
  labelUrl : Option String
  carrier : String
  service : String
  rate : String
  currency : String
deriving DecidableEq, Repr

/-- Response of the external `client.Shipment.buy` call. -/
structure BuyResponse where
  tracking_code : String
  label_url : Option String
deriving DecidableEq, Repr

/-- Response of the external `client.Shipment.refund` call;
`status` is optional / possibly empty (`refund.status || "submitted"`). -/
structure RefundResponse where
  status : Option String
deriving DecidableEq, Repr

/-- Response of the external `client.Shipment.create` call: the new
shipment id and its raw rate list (`shipment.rates` may be absent,
hence the `Option`, mirroring `shipment.rates || []`). -/
structure EPShipmentResponse where
  id : String
  rates : Option (List Rate)
deriving DecidableEq, Repr

/-- Parcel as sent to the EasyPost API (the `parcel` field of
`shipmentParams` in `createShipment`): weight in ounces, dimensions in
inches. -/
structure ApiParcel where
  weight : ℚ
  length : Option ℚ
  width : Option ℚ
  height : Option ℚ
deriving DecidableEq, Repr

/-- Options of `createShipment` (interface `CreateShipmentOptions`). -/
structure CreateShipmentOptions where
  orderId : Option String := none
  toAddress : Option Address := none
  parcel : Parcel
  carrier : Option String := none
deriving DecidableEq, Repr

/-! ## Record (JS object) operations on the shipment mapping -/

/-- `state.shipments[k]`: the entry at key `k` (at most one exists in a
JS object; on a list, the first). -/
def recLookup (m : List (String × PendingShipment)) (k : String) :
    Option PendingShipment :=
  match m with
  | [] => none
  | p :: m => if p.1 = k then some p.2 else recLookup m k

/-- `state.shipments[k] = v`: overwrite the entry at an existing key in
place, otherwise append a new entry (JS object assignment). -/
def recInsert (m : List (String × PendingShipment)) (k : String)
    (v : PendingShipment) : List (String × PendingShipment) :=
  if m.any (fun p => p.1 = k) then
    m.map (fun p => if p.1 = k then (k, v) else p)
  else
    m ++ [(k, v)]

/-- `delete state.shipments[k]`. -/
def recErase (m : List (String × PendingShipment)) (k : String) :
    List (String × PendingShipment) :=
  m.filter (fun p => !decide (p.1 = k))

/-! ## State management (`loadState` / `saveState`) -/

/-- `loadState`: absent or unparsable file degrades to the empty state
stamped with the current time (`new Date().toISOString()` is the
parameter `now`). -/
def loadState (now : String) (file : StoreFile) : ShipmentState :=
  match file with
  | none => { shipments := [], lastUpdated := now }
  | some none => { shipments := [], lastUpdated := now }
  | some (some st) => st

/-- `saveState`: stamp `lastUpdated` with the current time and write the
full state to the backing file. -/
def saveState (now : String) (st : ShipmentState) : StoreFile :=
  some (some { st with lastUpdated := now })

/-! ## Unit conversions -/

/-- `kgToOunces`: `kg * 35.274`. -/
def kgToOunces (kg : ℚ) : ℚ := kg * (35274 / 1000)

/-- `cmToInches`: `cm * 0.3937`. -/
def cmToInches (cm : ℚ) : ℚ := cm * (3937 / 10000)

/-- JS truthiness guard on an optional dimension: the spread
`...(options.parcel.length && { length: ... })` includes the field only
when the value is present and nonzero (`0` is falsy). -/
def truthyDim (d : Option ℚ) : Option ℚ :=
  match d with
  | some v => if v = 0 then none else some v
  | none => none

/-- The `parcel` field of `shipmentParams` built by `createShipment`:
weight converted kg → oz, each (truthy) dimension converted cm → in. -/
def apiParcelParams (p : Parcel) : ApiParcel :=
  { weight := kgToOunces p.weight
    length := (truthyDim p.length).map cmToInches
    width := (truthyDim p.width).map cmToInches
    height := (truthyDim p.height).map cmToInches }

/-! ## Price parsing and rate sorting

The source sorts rates with
`.sort((a, b) => parseFloat(a.rate) - parseFloat(b.rate))`.
`parseDecimal` models `parseFloat` on the plain non-negative decimal
numerals the rates API returns (`"9.99"`); `none` models `NaN`.  Per the
ECMAScript `SortCompare` specification a `NaN` comparator result is
treated as `+0`, i.e. the two elements compare equal, which is the
`true` fallback branch of `rateLE`. -/

/-- Numeric value of a decimal digit, `none` for a non-digit. -/
def digitVal (c : Char) : Option Nat :=
  if c.isDigit then some (c.toNat - 48) else none

/-- Value of a digit string; `none` if any character is not a digit. -/
def digitsVal (cs : List Char) : Option Nat :=
  cs.foldl (fun acc c =>
    match acc, digitVal c with
    | some n, some d => some (n * 10 + d)
    | _, _ => none) (some 0)

/-- `parseFloat` restricted to plain decimal numerals: an integer part,
optionally followed by a dot and a fractional part. -/
def parseDecimal (s : String) : Option ℚ :=
  match s.toList.splitOn '.' with
  | [w] =>
    if w.isEmpty then none
    else (digitsVal w).map (fun n => (n : ℚ))
  | [w, f] =>
    if w.isEmpty && f.isEmpty then none
    else
      match digitsVal w, digitsVal f with
      | some wn, some fn => some ((wn : ℚ) + (fn : ℚ) / ((10 : ℚ) ^ f.length))
      | _, _ => none
  | _ => none

/-- The comparator `(a, b) => parseFloat(a.rate) - parseFloat(b.rate)`
read as a boolean "a sorts no later than b": a negative or zero
difference keeps the order; a `NaN` difference is treated as `+0`
(equal) by `SortCompare`. -/
def rateLE (a b : Rate) : Bool :=
  match parseDecimal a.rate, parseDecimal b.rate with
  | some x, some y => decide (x ≤ y)
  | _, _ => true

/-- Insertion step of the comparator sort modelling `Array.prototype.sort`. -/
def insertB (le : α → α → Bool) (x : α) : List α → List α
  | [] => [x]
  | y :: ys => if le x y then x :: y :: ys else y :: insertB le x ys

/-- Comparator sort modelling `Array.prototype.sort`. -/
def sortB (le : α → α → Bool) : List α → List α
  | [] => []
  | x :: xs => insertB le x (sortB le xs)

/-- ASCII lowering of one character (JS `toLowerCase` on the ASCII
carrier names at issue). -/
def charLower (c : Char) : Char :=
  if 'A' ≤ c ∧ c ≤ 'Z' then Char.ofNat (c.toNat + 32) else c

/-- JS `String.prototype.toLowerCase`, modelled character-wise. -/
def strLower (s : String) : String := ⟨s.data.map charLower⟩

/-- The rate filter
`!options.carrier || r.carrier?.toLowerCase() === options.carrier.toLowerCase()`:
no filter, or an empty (falsy) filter string, accepts everything;
otherwise the carrier names must agree case-insensitively. -/
def carrierMatches (filter : Option String) (r : Rate) : Bool :=
  match filter with
  | none => true
  | some c => if c = "" then true else strLower r.carrier == strLower c

/-! ## Error messages (the exact strings the source throws) -/

/-- `"Either orderId or toAddress must be provided"`. -/
def eitherRequiredMsg : String :=
  "Either orderId or toAddress must be provided"

/-- The no-rates error thrown by `createShipment`. -/
def noRatesMsg : String :=
  "No shipping rates available for this shipment. Check addresses and carrier configuration."

/-- Not-found error of `buyLabel`. -/
def buyNotFoundMsg (shipmentId : String) : String :=
  "Shipment " ++ shipmentId ++ " not found in pending shipments"

/-- JS template-literal rendering of a possibly-undefined string. -/
def jsInterp (s : Option String) : String :=
  match s with
  | some v => v
  | none => "undefined"

/-- Already-purchased error of `buyLabel`, embedding the stored tracking
code (`undefined` when absent, as a JS template literal renders it). -/
def alreadyPurchasedMsg (shipmentId : String) (tracking : Option String) : String :=
  "Shipment " ++ shipmentId ++ " already purchased. Tracking: " ++ jsInterp tracking

/-- Rate-not-found error of `buyLabel`, enumerating the stored rate ids. -/
def rateNotFoundMsg (rateId shipmentId : String) (rateIds : List String) : String :=
  "Rate " ++ rateId ++ " not found for shipment " ++ shipmentId ++
    ". Available rates: " ++ String.intercalate ", " rateIds

/-- Not-found error of `getRates`. -/
def getRatesNotFoundMsg (shipmentId : String) : String :=
  "Shipment " ++ shipmentId ++ " not found"

/-! ## Workflow operations

Each operation takes the results of the external calls it makes as
explicit arguments (`resolveOrder` for `fetchShopifyOrderAddress`,
`apiCreate` for `Shipment.create`, `buyCall` for `Shipment.buy`,
`refundCall` for `Shipment.refund`), the current time `now`, and the
current backing file; mutating operations return the resulting backing
file alongside the result. -/

/-- The fixed warehouse origin (`getFromAddress`). -/
def getFromAddress : Address :=
  { company := some "YOUR_COMPANY"
    street1 := "YOUR_WAREHOUSE_ADDRESS_LINE_1"
    street2 := some "YOUR_WAREHOUSE_ADDRESS_LINE_2"
    city := "YOUR_CITY"
    state := some ""
    zip := "YOUR_POSTCODE"
    country := "GB"
    phone := some "YOUR_PHONE_NUMBER"
    email := some "YOUR_LOGISTICS_EMAIL" }

/-- Destination address resolution at the top of `createShipment`:
`if (options.orderId)` is a JS truthiness test, so a present but empty
order id is falsy and falls through exactly like an absent one — to the
explicit `toAddress` when given, else the either-required error. -/
def resolveToAddress (resolveOrder : String → Except String Address)
    (options : CreateShipmentOptions) : Except String Address :=
  match options.orderId with
  | some oid =>
    if oid = "" then
      match options.toAddress with
      | some a => Except.ok a
      | none => Except.error eitherRequiredMsg
    else resolveOrder oid
  | none =>
    match options.toAddress with
    | some a => Except.ok a
    | none => Except.error eitherRequiredMsg

/-- The rate list `createShipment` builds from the raw API response:
carrier filter, field projection (the identity on our typed rates),
then the comparator sort. -/
def processRates (carrier : Option String) (rawRates : Option (List Rate)) :
    List Rate :=
  sortB rateLE ((rawRates.getD []).filter (carrierMatches carrier))

/-- Stage 1, `createShipment`: resolve the destination, call the
external shipment-creation API with the unit-converted parcel, filter
and sort its rates, fail if none remain, else persist and return the
new pending record. -/
def createShipment (resolveOrder : String → Except String Address)
    (apiCreate : ApiParcel → EPShipmentResponse) (now : String)
    (file : StoreFile) (options : CreateShipmentOptions) :
    Except String PendingShipment × StoreFile :=
  match resolveToAddress resolveOrder options with
  | Except.error e => (Except.error e, file)
  | Except.ok toAddress =>
    let shipment := apiCreate (apiParcelParams options.parcel)
    let rates := processRates options.carrier shipment.rates
    if rates.isEmpty then
      (Except.error noRatesMsg, file)
    else
      let pendingShipment : PendingShipment :=
        { id := shipment.id
          createdAt := now
          orderId := options.orderId
          toAddress := toAddress
          fromAddress := getFromAddress
          parcel := options.parcel
          rates := rates
          status := ShipStatus.pending }
      let state := loadState now file
      let state' := { state with
        shipments := recInsert state.shipments shipment.id pendingShipment }
      (Except.ok pendingShipment, saveState now state')

/-- Stage 2, `buyLabel`: look the shipment up, reject absent /
already-purchased / unknown-rate cases before the external buy call,
then record tracking code and label URL and persist. -/
def buyLabel (buyCall : Except String BuyResponse) (now : String)
    (file : StoreFile) (shipmentId rateId : String) :
    Except String PurchasedLabel × StoreFile :=
  let state := loadState now file
  match recLookup state.shipments shipmentId with
  | none => (Except.error (buyNotFoundMsg shipmentId), file)
  | some pendingShipment =>
    if pendingShipment.status = ShipStatus.purchased then
      (Except.error (alreadyPurchasedMsg shipmentId pendingShipment.trackingCode),
        file)
    else
      match pendingShipment.rates.find? (fun r => r.id == rateId) with
      | none =>
        (Except.error
          (rateNotFoundMsg rateId shipmentId (pendingShipment.rates.map (·.id))),
          file)
      | some rate =>
        match buyCall with
        | Except.error e => (Except.error e, file)
        | Except.ok purchasedShipment =>
          let label : PurchasedLabel :=
            { trackingCode := purchasedShipment.tracking_code
              labelUrl := purchasedShipment.label_url
              carrier := rate.carrier
              service := rate.service
              rate := rate.rate
              currency := rate.currency }
          let pendingShipment' := { pendingShipment with
            status := ShipStatus.purchased
            trackingCode := some label.trackingCode
            labelUrl := label.labelUrl }
          let state' := { state with
            shipments := recInsert state.shipments shipmentId pendingShipment' }
          (Except.ok label, saveState now state')

/-- `cancelShipment`: structured result, never raises; deletes the
record unless it is absent or purchased. -/
def cancelShipment (now : String) (file : StoreFile) (shipmentId : String) :
    OpResult × StoreFile :=
  let state := loadState now file
  match recLookup state.shipments shipmentId with
  | none =>
    ({ success := false, message := "Shipment " ++ shipmentId ++ " not found" },
      file)
  | some shipment =>
    if shipment.status = ShipStatus.purchased then
      ({ success := false
         message := "Cannot cancel purchased shipment. Use void-label to request refund." },
        file)
    else
      ({ success := true, message := "Shipment cancelled. No charges incurred." },
        saveState now { state with
          shipments := recErase state.shipments shipmentId })

/-- `getRates`: read-only lookup of the stored rate snapshot. -/
def getRates (now : String) (file : StoreFile) (shipmentId : String) :
    Except String (List Rate) :=
  let state := loadState now file
  match recLookup state.shipments shipmentId with
  | none => Except.error (getRatesNotFoundMsg shipmentId)
  | some shipment => Except.ok shipment.rates

/-- `refund.status || "submitted"`: JS falsy fallback (absent or empty). -/
def refundStatusText (s : Option String) : String :=
  match s with
  | some v => if v.isEmpty then "submitted" else v
  | none => "submitted"

/-- `voidLabel`: issue the external refund; on failure return a
structured failure without touching the store; on success mark the
record voided when it exists (still success when it does not). -/
def voidLabel (refundCall : Except String RefundResponse) (now : String)
    (file : StoreFile) (shipmentId : String) : OpResult × StoreFile :=
  match refundCall with
  | Except.error e =>
    ({ success := false, message := "Void failed: " ++ e }, file)
  | Except.ok refund =>
    let state := loadState now file
    match recLookup state.shipments shipmentId with
    | some s =>
      let state' := { state with
        shipments := recInsert state.shipments shipmentId
          { s with status := ShipStatus.voided } }
      ({ success := true
         message := "Refund requested. Status: " ++ refundStatusText refund.status },
        saveState now state')
    | none =>
      ({ success := true
         message := "Refund requested. Status: " ++ refundStatusText refund.status },
        file)

/-! ## Derived definitions used by the theorems -/

/-- The record `createShipment` persists and returns on success
(destination already resolved to `a`). -/
def createdShipmentRecord (apiCreate : ApiParcel → EPShipmentResponse)
    (now : String) (options : CreateShipmentOptions) (a : Address) :
    PendingShipment :=
  { id := (apiCreate (apiParcelParams options.parcel)).id
    createdAt := now
    orderId := options.orderId
    toAddress := a
    fromAddress := getFromAddress
    parcel := options.parcel
    rates := processRates options.carrier
      (apiCreate (apiParcelParams options.parcel)).rates
    status := ShipStatus.pending }

/-- Status of the record stored at key `k` as seen through the backing
file; `none` means no record ("absent"). -/
def statusAt (now : String) (file : StoreFile) (k : String) :
    Option ShipStatus :=
  (recLookup (loadState now file).shipments k).map (fun s => s.status)

/-- The status transitions the spec declares legal: no change, creation
of a fresh pending record, pending → purchased (buyLabel),
pending → absent (cancelShipment), purchased → voided (voidLabel). -/
def specAllowed (a b : Option ShipStatus) : Bool :=
  a == b ||
    (a == none && b == some ShipStatus.pending) ||
    (a == some ShipStatus.pending && b == some ShipStatus.purchased) ||
    (a == some ShipStatus.pending && b == none) ||
    (a == some ShipStatus.purchased && b == some ShipStatus.voided)

/-- The status transitions the code actually performs: the spec's, plus
pending → voided (`voidLabel` voids any existing record, not only
purchased ones), voided → purchased (`buyLabel` only rejects records
already purchased), and voided → absent (`cancelShipment` only rejects
purchased records). -/
def codeAllowed (a b : Option ShipStatus) : Bool :=
  specAllowed a b ||
    (a == some ShipStatus.pending && b == some ShipStatus.voided) ||
    (a == some ShipStatus.voided && b == some ShipStatus.purchased) ||
    (a == some ShipStatus.voided && b == none)

/-! ## Concrete fixtures (used by witnesses and counterexamples) -/

/-- A destination address. -/
def exAddr : Address :=
  { street1 := "123 Main Street", city := "London", zip := "SW1A 1AA",
    country := "GB" }

/-- A 15 kg parcel without dimensions. -/
def exParcel : Parcel := { weight := 15 }

/-- The cheaper of the two example quotes. -/
def exRateCheap : Rate :=
  { id := "rate_a", carrier := "UPS", service := "Standard",
    rate := "9.99", currency := "GBP" }

/-- The dearer of the two example quotes. -/
def exRateFast : Rate :=
  { id := "rate_b", carrier := "UPS", service := "Express",
    rate := "15.50", currency := "GBP" }

/-- An order resolver knowing exactly the order `ord_1`. -/
def exResolver : String → Except String Address :=
  fun oid =>
    if oid = "ord_1" then Except.ok exAddr
    else Except.error ("Shopify order not found: " ++ oid)

/-- A shipment-creation endpoint returning two UPS quotes, dearer one
first. -/
def exApiCreate : ApiParcel → EPShipmentResponse :=
  fun _ => { id := "shp_1", rates := some [exRateFast, exRateCheap] }

/-- Creation options: manual address, no carrier filter. -/
def exOptions : CreateShipmentOptions :=
  { toAddress := some exAddr, parcel := exParcel }

/-- The stored record after the example creation. -/
def exPendingRec : PendingShipment :=
  { id := "shp_1", createdAt := "t0", toAddress := exAddr,
    fromAddress := getFromAddress, parcel := exParcel,
    rates := [exRateCheap, exRateFast], status := ShipStatus.pending }

/-- Backing file holding the single pending record. -/
def exFilePending : StoreFile :=
  some (some { shipments := [("shp_1", exPendingRec)], lastUpdated := "t0" })

/-- The same record after a purchase. -/
def exPurchasedRec : PendingShipment :=
  { exPendingRec with
    status := ShipStatus.purchased
    trackingCode := some "TRACK123"
    labelUrl := some "https://labels.example/1.png" }

/-- Backing file holding the single purchased record. -/
def exFilePurchased : StoreFile :=
  some (some { shipments := [("shp_1", exPurchasedRec)], lastUpdated := "t1" })

/-- Response of a successful external purchase call. -/
def exBuyResp : BuyResponse :=
  { tracking_code := "TRACK123",
    label_url := some "https://labels.example/1.png" }

/-- Creation options carrying a carrier filter matching no quote. -/
def exOptionsDHL : CreateShipmentOptions :=
  { toAddress := some exAddr, parcel := exParcel, carrier := some "DHL" }

/-- Response of a successful external refund call. -/
def exRefund : RefundResponse := { status := some "refunded" }

/-- The purchased-label summary returned for the example purchase. -/
def exLabel : PurchasedLabel :=
  { trackingCode := "TRACK123",
    labelUrl := some "https://labels.example/1.png",
    carrier := "UPS", service := "Standard", rate := "9.99",
    currency := "GBP" }

/-! ## Lemmas about the record operations -/

theorem recLookup_eq_none_iff (m : List (String × PendingShipment)) (k : String) :
    recLookup m k = none ↔ ∀ p ∈ m, p.1 ≠ k := by
  induction m with
  | nil => simp [recLookup]
  | cons p m ih =>
    by_cases hp : p.1 = k
    · simp [recLookup, hp]
    · simp [recLookup, hp, ih]

theorem recLookup_recInsert_self (m : List (String × PendingShipment))
    (k : String) (v : PendingShipment) :
    recLookup (recInsert m k v) k = some v := by
  unfold recInsert
  by_cases h : m.any (fun p => p.1 = k)
  · simp only [if_pos h]
    induction m with
    | nil => simp at h
    | cons p m ih =>
      simp only [List.any_cons, Bool.or_eq_true, decide_eq_true_eq] at h
      by_cases hp : p.1 = k
      · simp [recLookup, hp]
      · have h' : m.any (fun q => q.1 = k) = true := by
          rcases h with h | h
          · exact absurd h hp
          · simpa using h
        simp only [List.map_cons, if_neg hp, recLookup, hp, if_false]
        exact ih h'
  · simp only [if_neg h]
    induction m with
    | nil => simp [recLookup]
    | cons p m ih =>
      simp only [List.any_cons, Bool.or_eq_true, decide_eq_true_eq, not_or] at h
      simp only [List.cons_append, recLookup, h.1, if_false]
      exact ih (by simpa using h.2)

theorem recLookup_recInsert_ne (m : List (String × PendingShipment))
    (k k' : String) (v : PendingShipment) (h : k' ≠ k) :
    recLookup (recInsert m k v) k' = recLookup m k' := by
  have hne : k ≠ k' := fun hc => h hc.symm
  unfold recInsert
  by_cases hany : m.any (fun p => p.1 = k)
  · simp only [if_pos hany]
    clear hany
    induction m with
    | nil => rfl
    | cons p m ih =>
      by_cases hp : p.1 = k
      · simp only [List.map_cons, if_pos hp, recLookup, hne, if_false]
        rw [hp, if_neg hne]
        exact ih
      · simp only [List.map_cons, if_neg hp, recLookup]
        by_cases hq : p.1 = k'
        · simp [hq]
        · simp only [hq, if_false]
          exact ih
  · simp only [if_neg hany]
    clear hany
    induction m with
    | nil => simp [recLookup, hne]
    | cons p m ih =>
      simp only [List.cons_append, recLookup]
      by_cases hq : p.1 = k'
      · simp [hq]
      · simp only [hq, if_false]
        exact ih

theorem recLookup_recErase_self (m : List (String × PendingShipment))
    (k : String) : recLookup (recErase m k) k = none := by
  rw [recLookup_eq_none_iff]
  intro p hp
  have := List.of_mem_filter hp
  simpa using this

theorem recLookup_recErase_ne (m : List (String × PendingShipment))
    (k k' : String) (h : k' ≠ k) :
    recLookup (recErase m k) k' = recLookup m k' := by
  induction m with
  | nil => rfl
  | cons p m ih =>
    by_cases hp : p.1 = k
    · have hq : p.1 ≠ k' := by rw [hp]; exact fun hc => h hc.symm
      simp only [recErase, List.filter_cons, hp] at ih ⊢
      simpa [recLookup, hq] using ih
    · by_cases hq : p.1 = k'
      · simp [recErase, List.filter_cons, hp, recLookup, hq, h]
      · simp only [recErase, List.filter_cons, hp] at ih ⊢
        simpa [recLookup, hq] using ih

theorem loadState_saveState (now now' : String) (st : ShipmentState) :
    loadState now' (saveState now st) = { st with lastUpdated := now } := rfl

/-! ## Lemmas about the comparator sort -/

theorem mem_insertB {α : Type _} (le : α → α → Bool) (x : α) (l : List α)
    (a : α) : a ∈ insertB le x l ↔ a = x ∨ a ∈ l := by
  induction l with
  | nil => simp [insertB]
  | cons y ys ih =>
    by_cases hle : le x y
    · simp [insertB, hle]
    · simp only [insertB, hle, Bool.false_eq_true, if_false, List.mem_cons, ih]
      tauto

theorem mem_sortB {α : Type _} (le : α → α → Bool) (l : List α) (a : α) :
    a ∈ sortB le l ↔ a ∈ l := by
  induction l with
  | nil => simp [sortB]
  | cons x xs ih =>
    simp only [sortB, mem_insertB, ih, List.mem_cons]

theorem insertB_ne_nil {α : Type _} (le : α → α → Bool) (x : α) (l : List α) :
    insertB le x l ≠ [] := by
  cases l with
  | nil => simp [insertB]
  | cons y ys =>
    by_cases h : le x y <;> simp [insertB, h]

theorem sortB_eq_nil_iff {α : Type _} (le : α → α → Bool) (l : List α) :
    sortB le l = [] ↔ l = [] := by
  cases l with
  | nil => simp [sortB]
  | cons x xs =>
    simp only [sortB]
    exact ⟨fun h => absurd h (insertB_ne_nil le x _), fun h => by simp at h⟩

theorem insertB_congr {α : Type _} (le₁ le₂ : α → α → Bool) (x : α)
    (l : List α) (h : ∀ b ∈ l, le₁ x b = le₂ x b) :
    insertB le₁ x l = insertB le₂ x l := by
  induction l with
  | nil => rfl
  | cons y ys ih =>
    have hy : le₁ x y = le₂ x y := h y (by simp)
    simp only [insertB, hy]
    by_cases hle : le₂ x y
    · simp [hle]
    · simp only [hle, Bool.false_eq_true, if_false]
      rw [ih (fun b hb => h b (by simp [hb]))]

theorem sortB_congr {α : Type _} (le₁ le₂ : α → α → Bool) (l : List α)
    (h : ∀ a ∈ l, ∀ b ∈ l, le₁ a b = le₂ a b) :
    sortB le₁ l = sortB le₂ l := by
  induction l with
  | nil => rfl
  | cons x xs ih =>
    simp only [sortB]
    rw [ih (fun a ha b hb => h a (by simp [ha]) b (by simp [hb]))]
    exact insertB_congr _ _ _ _ (fun b hb =>
      h x (by simp) b (by simp [(mem_sortB le₂ xs b).mp hb]))

theorem pairwise_insertB_key {α : Type _} (f : α → ℚ) (x : α) (l : List α)
    (h : l.Pairwise (fun a b => f a ≤ f b)) :
    (insertB (fun a b => decide (f a ≤ f b)) x l).Pairwise
      (fun a b => f a ≤ f b) := by
  induction l with
  | nil => simp [insertB]
  | cons y ys ih =>
    rcases List.pairwise_cons.mp h with ⟨hy, hys⟩
    by_cases hle : f x ≤ f y
    · simp only [insertB, decide_eq_true hle, if_true]
      refine List.pairwise_cons.mpr ⟨?_, h⟩
      intro b hb
      rcases List.mem_cons.mp hb with rfl | hb
      · exact hle
      · exact le_trans hle (hy b hb)
    · simp only [insertB]
      rw [if_neg (by simpa using hle)]
      refine List.pairwise_cons.mpr ⟨?_, ih hys⟩
      intro b hb
      rcases (mem_insertB _ _ _ _).mp hb with rfl | hb
      · exact le_of_not_le hle
      · exact hy b hb

theorem pairwise_sortB_key {α : Type _} (f : α → ℚ) (l : List α) :
    (sortB (fun a b => decide (f a ≤ f b)) l).Pairwise
      (fun a b => f a ≤ f b) := by
  induction l with
  | nil => simp [sortB]
  | cons x xs ih => exact pairwise_insertB_key f x _ ih

/-! ## Price values of rates -/

/-- The numeric price of a rate, for rates whose price string parses
(`0` is a placeholder for unparsable strings, never hit under the
parsing hypotheses below). -/
def ratePrice (r : Rate) : ℚ := (parseDecimal r.rate).getD 0

theorem rateLE_eq_key (a b : Rate) (ha : (parseDecimal a.rate).isSome)
    (hb : (parseDecimal b.rate).isSome) :
    rateLE a b = decide (ratePrice a ≤ ratePrice b) := by
  unfold rateLE ratePrice
  rcases Option.isSome_iff_exists.mp ha with ⟨x, hx⟩
  rcases Option.isSome_iff_exists.mp hb with ⟨y, hy⟩
  rw [hx, hy]
  simp

theorem processRates_sorted (carrier : Option String)
    (raw : Option (List Rate))
    (h : ∀ r ∈ raw.getD [], (parseDecimal r.rate).isSome) :
    (processRates carrier raw).Pairwise
      (fun a b => ratePrice a ≤ ratePrice b) := by
  unfold processRates
  have hsub : ∀ r ∈ (raw.getD []).filter (carrierMatches carrier),
      (parseDecimal r.rate).isSome :=
    fun r hr => h r (List.mem_of_mem_filter hr)
  rw [sortB_congr rateLE (fun a b => decide (ratePrice a ≤ ratePrice b)) _
    (fun a ha b hb => rateLE_eq_key a b (hsub a ha) (hsub b hb))]
  exact pairwise_sortB_key _ _

/-! ## Shape lemmas: one per control-flow branch of each operation -/

theorem createShipment_resolveErr (resolveOrder : String → Except String Address)
    (apiCreate : ApiParcel → EPShipmentResponse) (now : String)
    (file : StoreFile) (options : CreateShipmentOptions) (e : String)
    (hres : resolveToAddress resolveOrder options = Except.error e) :
    createShipment resolveOrder apiCreate now file options =
      (Except.error e, file) := by
  simp only [createShipment, hres]

theorem createShipment_noRates (resolveOrder : String → Except String Address)
    (apiCreate : ApiParcel → EPShipmentResponse) (now : String)
    (file : StoreFile) (options : CreateShipmentOptions) (a : Address)
    (hres : resolveToAddress resolveOrder options = Except.ok a)
    (hempty : processRates options.carrier
      (apiCreate (apiParcelParams options.parcel)).rates = []) :
    createShipment resolveOrder apiCreate now file options =
      (Except.error noRatesMsg, file) := by
  simp only [createShipment, hres, hempty, List.isEmpty_nil, if_true]

theorem createShipment_success (resolveOrder : String → Except String Address)
    (apiCreate : ApiParcel → EPShipmentResponse) (now : String)
    (file : StoreFile) (options : CreateShipmentOptions) (a : Address)
    (hres : resolveToAddress resolveOrder options = Except.ok a)
    (hne : processRates options.carrier
      (apiCreate (apiParcelParams options.parcel)).rates ≠ []) :
    createShipment resolveOrder apiCreate now file options =
      (Except.ok (createdShipmentRecord apiCreate now options a),
        saveState now
          { loadState now file with
            shipments := recInsert (loadState now file).shipments
              (apiCreate (apiParcelParams options.parcel)).id
              (createdShipmentRecord apiCreate now options a) }) := by
  simp only [createShipment, hres]
  rw [if_neg (by simpa [List.isEmpty_iff] using hne)]
  rfl

theorem buyLabel_notFound_eq (buy : Except String BuyResponse) (now : String)
    (file : StoreFile) (sid rid : String)
    (h : recLookup (loadState now file).shipments sid = none) :
    buyLabel buy now file sid rid = (Except.error (buyNotFoundMsg sid), file) := by
  simp only [buyLabel, h]

theorem buyLabel_alreadyPurchased_eq (buy : Except String BuyResponse)
    (now : String) (file : StoreFile) (sid rid : String)
    (ps : PendingShipment)
    (hps : recLookup (loadState now file).shipments sid = some ps)
    (h : ps.status = ShipStatus.purchased) :
    buyLabel buy now file sid rid =
      (Except.error (alreadyPurchasedMsg sid ps.trackingCode), file) := by
  simp only [buyLabel, hps, h, if_true]

theorem buyLabel_rateMissing_eq (buy : Except String BuyResponse)
    (now : String) (file : StoreFile) (sid rid : String)
    (ps : PendingShipment)
    (hps : recLookup (loadState now file).shipments sid = some ps)
    (hnp : ps.status ≠ ShipStatus.purchased)
    (hfind : ps.rates.find? (fun r => r.id == rid) = none) :
    buyLabel buy now file sid rid =
      (Except.error (rateNotFoundMsg rid sid (ps.rates.map (fun r => r.id))),
        file) := by
  simp only [buyLabel, hps, hfind, if_neg hnp]

theorem buyLabel_buyErr_eq (e : String) (now : String) (file : StoreFile)
    (sid rid : String) (ps : PendingShipment × Rate)
    (hps : recLookup (loadState now file).shipments sid = some ps.1)
    (hnp : ps.1.status ≠ ShipStatus.purchased)
    (hfind : ps.1.rates.find? (fun r => r.id == rid) = some ps.2) :
    buyLabel (Except.error e) now file sid rid = (Except.error e, file) := by
  simp only [buyLabel, hps, hfind, if_neg hnp]

theorem buyLabel_success_eq (resp : BuyResponse) (now : String)
    (file : StoreFile) (sid rid : String) (ps : PendingShipment) (rate : Rate)
    (hps : recLookup (loadState now file).shipments sid = some ps)
    (hnp : ps.status ≠ ShipStatus.purchased)
    (hfind : ps.rates.find? (fun r => r.id == rid) = some rate) :
    buyLabel (Except.ok resp) now file sid rid =
      (Except.ok
        { trackingCode := resp.tracking_code
          labelUrl := resp.label_url
          carrier := rate.carrier
          service := rate.service
          rate := rate.rate
          currency := rate.currency },
        saveState now
          { loadState now file with
            shipments := recInsert (loadState now file).shipments sid
              { ps with
                status := ShipStatus.purchased
                trackingCode := some resp.tracking_code
                labelUrl := resp.label_url } }) := by
  simp only [buyLabel, hps, hfind, if_neg hnp]

theorem cancelShipment_notFound_eq (now : String) (file : StoreFile)
    (sid : String)
    (h : recLookup (loadState now file).shipments sid = none) :
    cancelShipment now file sid =
      ({ success := false, message := "Shipment " ++ sid ++ " not found" },
        file) := by
  simp only [cancelShipment, h]

theorem cancelShipment_purchased_eq (now : String) (file : StoreFile)
    (sid : String) (ps : PendingShipment)
    (hps : recLookup (loadState now file).shipments sid = some ps)
    (h : ps.status = ShipStatus.purchased) :
    cancelShipment now file sid =
      ({ success := false
         message := "Cannot cancel purchased shipment. Use void-label to request refund." },
        file) := by
  simp only [cancelShipment, hps, h, if_true]

theorem cancelShipment_deletes_eq (now : String) (file : StoreFile)
    (sid : String) (ps : PendingShipment)
    (hps : recLookup (loadState now file).shipments sid = some ps)
    (h : ps.status ≠ ShipStatus.purchased) :
    cancelShipment now file sid =
      ({ success := true, message := "Shipment cancelled. No charges incurred." },
        saveState now
          { loadState now file with
            shipments := recErase (loadState now file).shipments sid }) := by
  simp only [cancelShipment, hps, if_neg h]

theorem voidLabel_refundErr_eq (e now : String) (file : StoreFile)
    (sid : String) :
    voidLabel (Except.error e) now file sid =
      ({ success := false, message := "Void failed: " ++ e }, file) := rfl

theorem voidLabel_found_eq (refund : RefundResponse) (now : String)
    (file : StoreFile) (sid : String) (s : PendingShipment)
    (hps : recLookup (loadState now file).shipments sid = some s) :
    voidLabel (Except.ok refund) now file sid =
      ({ success := true
         message := "Refund requested. Status: " ++ refundStatusText refund.status },
        saveState now
          { loadState now file with
            shipments := recInsert (loadState now file).shipments sid
              { s with status := ShipStatus.voided } }) := by
  simp only [voidLabel, hps]

theorem voidLabel_absent_eq (refund : RefundResponse) (now : String)
    (file : StoreFile) (sid : String)
    (h : recLookup (loadState now file).shipments sid = none) :
    voidLabel (Except.ok refund) now file sid =
      ({ success := true
         message := "Refund requested. Status: " ++ refundStatusText refund.status },
        file) := by
  simp only [voidLabel, h]

/-! ## Inversion lemmas for successful calls -/

theorem createShipment_ok_inv (resolveOrder : String → Except String Address)
    (apiCreate : ApiParcel → EPShipmentResponse) (now : String)
    (file : StoreFile) (options : CreateShipmentOptions) (ps : PendingShipment)
    (h : (createShipment resolveOrder apiCreate now file options).1 =
      Except.ok ps) :
    ∃ a, resolveToAddress resolveOrder options = Except.ok a ∧
      processRates options.carrier
        (apiCreate (apiParcelParams options.parcel)).rates ≠ [] ∧
      ps = createdShipmentRecord apiCreate now options a := by
  cases hres : resolveToAddress resolveOrder options with
  | error e =>
    rw [createShipment_resolveErr _ _ _ _ _ _ hres] at h
    simp at h
  | ok a =>
    by_cases hempty : processRates options.carrier
        (apiCreate (apiParcelParams options.parcel)).rates = []
    · rw [createShipment_noRates _ _ _ _ _ _ hres hempty] at h
      simp at h
    · rw [createShipment_success _ _ _ _ _ _ hres hempty] at h
      simp only [Except.ok.injEq] at h
      exact ⟨a, rfl, hempty, h.symm⟩

theorem buyLabel_ok_inv (buy : Except String BuyResponse) (now : String)
    (file : StoreFile) (sid rid : String) (label : PurchasedLabel)
    (file2 : StoreFile)
    (h : buyLabel buy now file sid rid = (Except.ok label, file2)) :
    ∃ ps rate resp,
      recLookup (loadState now file).shipments sid = some ps ∧
      ps.status ≠ ShipStatus.purchased ∧
      ps.rates.find? (fun r => r.id == rid) = some rate ∧
      buy = Except.ok resp ∧
      label =
        { trackingCode := resp.tracking_code
          labelUrl := resp.label_url
          carrier := rate.carrier
          service := rate.service
          rate := rate.rate
          currency := rate.currency } ∧
      file2 = saveState now
        { loadState now file with
          shipments := recInsert (loadState now file).shipments sid
            { ps with
              status := ShipStatus.purchased
              trackingCode := some resp.tracking_code
              labelUrl := resp.label_url } } := by
  cases hl : recLookup (loadState now file).shipments sid with
  | none =>
    rw [buyLabel_notFound_eq _ _ _ _ _ hl] at h
    simp at h
  | some ps =>
    by_cases hst : ps.status = ShipStatus.purchased
    · rw [buyLabel_alreadyPurchased_eq _ _ _ _ _ _ hl hst] at h
      simp at h
    · cases hf : ps.rates.find? (fun r => r.id == rid) with
      | none =>
        rw [buyLabel_rateMissing_eq _ _ _ _ _ _ hl hst hf] at h
        simp at h
      | some rate =>
        cases buy with
        | error e =>
          rw [buyLabel_buyErr_eq e now file sid rid (ps, rate) hl hst hf] at h
          simp at h
        | ok resp =>
          rw [buyLabel_success_eq _ _ _ _ _ _ _ hl hst hf] at h
          rw [Prod.mk.injEq] at h
          simp only [Except.ok.injEq] at h
          exact ⟨ps, rate, resp, rfl, hst, hf, rfl, h.1.symm, h.2.symm⟩

/-! ## Claim theorems -/

/-- C9: `load()` is total and degrades to an empty shipment mapping when
the backing file is absent (`none`) or unparsable (`some none`); it is a
total Lean function, so no read or parse error can propagate. -/
theorem c9_loadState_empty_fallback (now : String) (file : StoreFile)
    (h : file = none ∨ file = some none) :
    (loadState now file).shipments = [] := by
  rcases h with rfl | rfl <;> rfl

/-- Witness for C9 at a concrete absent file. -/
theorem c9_loadState_empty_fallback_witness :
    (loadState "t0" (none : StoreFile)).shipments = [] :=
  c9_loadState_empty_fallback "t0" none (Or.inl rfl)

/-- C2: every successful `createShipment` call whose raw quotes carry
decimal price strings returns a record with status `pending` and a
non-empty rate list sorted ascending by the parsed numeric price. -/
theorem c2_createShipment_pending_sorted
    (resolveOrder : String → Except String Address)
    (apiCreate : ApiParcel → EPShipmentResponse) (now : String)
    (file : StoreFile) (options : CreateShipmentOptions) (ps : PendingShipment)
    (hparse : ∀ r ∈ (apiCreate (apiParcelParams options.parcel)).rates.getD [],
      (parseDecimal r.rate).isSome)
    (hok : (createShipment resolveOrder apiCreate now file options).1 =
      Except.ok ps) :
    ps.status = ShipStatus.pending ∧ ps.rates ≠ [] ∧
      ps.rates.Pairwise (fun a b => ratePrice a ≤ ratePrice b) := by
  obtain ⟨a, hres, hne, hps⟩ :=
    createShipment_ok_inv resolveOrder apiCreate now file options ps hok
  subst hps
  refine ⟨rfl, ?_, ?_⟩
  · simpa [createdShipmentRecord] using hne
  · exact processRates_sorted _ _ hparse

/-- Witness for C2: concrete creation with prices `"15.50"`, `"9.99"`. -/
theorem c2_createShipment_pending_sorted_witness :
    (createdShipmentRecord exApiCreate "t0" exOptions exAddr).status =
      ShipStatus.pending ∧
    (createdShipmentRecord exApiCreate "t0" exOptions exAddr).rates ≠ [] ∧
    (createdShipmentRecord exApiCreate "t0" exOptions exAddr).rates.Pairwise
      (fun a b => ratePrice a ≤ ratePrice b) :=
  c2_createShipment_pending_sorted exResolver exApiCreate "t0" none exOptions
    (createdShipmentRecord exApiCreate "t0" exOptions exAddr)
    (by decide)
    (by
      have hne : processRates exOptions.carrier
          (exApiCreate (apiParcelParams exOptions.parcel)).rates ≠ [] := by
        simp only [processRates, Ne, sortB_eq_nil_iff]
        simp [exApiCreate, exOptions, carrierMatches]
      rw [createShipment_success exResolver exApiCreate "t0" none exOptions
        exAddr rfl hne])

/-- C3: with a (non-empty) carrier filter, `createShipment` filters the
raw quotes case-insensitively by carrier name before the sort, and when
the filter (or the shopper itself) leaves no rates the call fails with
the no-rates error and returns the backing file untouched, so the store
mapping is exactly what it was. -/
theorem c3_carrierFilter_noRates
    (resolveOrder : String → Except String Address)
    (apiCreate : ApiParcel → EPShipmentResponse) (now : String)
    (file : StoreFile) (options : CreateShipmentOptions) (a : Address)
    (c : String)
    (hres : resolveToAddress resolveOrder options = Except.ok a)
    (hc : options.carrier = some c) (hcne : c ≠ "") :
    (∀ r, carrierMatches options.carrier r =
      (strLower r.carrier == strLower c)) ∧
    (∀ ps st',
      createShipment resolveOrder apiCreate now file options =
        (Except.ok ps, st') →
      ps.rates = sortB rateLE
        (((apiCreate (apiParcelParams options.parcel)).rates.getD []).filter
          (carrierMatches options.carrier))) ∧
    ((((apiCreate (apiParcelParams options.parcel)).rates.getD []).filter
        (carrierMatches options.carrier)) = [] →
      createShipment resolveOrder apiCreate now file options =
        (Except.error noRatesMsg, file)) := by
  refine ⟨?_, ?_, ?_⟩
  · intro r
    simp [carrierMatches, hc, hcne]
  · intro ps st' h
    obtain ⟨a', _, _, hps⟩ :=
      createShipment_ok_inv resolveOrder apiCreate now file options ps
        (by rw [h])
    subst hps
    rfl
  · intro hempty
    exact createShipment_noRates resolveOrder apiCreate now file options a hres
      (by simp [processRates, hempty, sortB])

/-- Witness for C3: the filter `"DHL"` removes both UPS quotes, the call
fails with the no-rates error and the absent backing file stays absent. -/
theorem c3_carrierFilter_noRates_witness :
    carrierMatches (some "DHL") exRateCheap =
      (strLower exRateCheap.carrier == strLower "DHL") ∧
    createShipment exResolver exApiCreate "t0" none exOptionsDHL =
      (Except.error noRatesMsg, none) := by
  have h := c3_carrierFilter_noRates exResolver exApiCreate "t0" none
    exOptionsDHL exAddr "DHL" rfl rfl (by decide)
  exact ⟨h.1 exRateCheap, h.2.2 (by decide)⟩

/-- A truthy (present, non-empty) order id always takes the Shopify
resolution branch, whatever `toAddress` holds. -/
theorem resolveToAddress_orderId (resolveOrder : String → Except String Address)
    (options : CreateShipmentOptions) (oid : String)
    (h : options.orderId = some oid) (hne : oid ≠ "") :
    resolveToAddress resolveOrder options = resolveOrder oid := by
  simp [resolveToAddress, h, hne]

/-- C10: when both a (truthy, i.e. non-empty — `if (options.orderId)` is
a JS truthiness test) `orderId` and an explicit `toAddress` are given,
the `orderId` wins — the result does not depend on the supplied
`toAddress` and on success the record's destination is the resolved
order address; the either-required error occurs exactly when both are
absent. -/
theorem c10_orderId_precedence (resolveOrder : String → Except String Address)
    (apiCreate : ApiParcel → EPShipmentResponse) (now : String)
    (file : StoreFile) (parcel : Parcel) (carrier : Option String)
    (oid : String) (addr : Option Address) (a : Address)
    (hcne : oid ≠ "") :
    (createShipment resolveOrder apiCreate now file
        { orderId := some oid, toAddress := addr, parcel := parcel,
          carrier := carrier } =
      createShipment resolveOrder apiCreate now file
        { orderId := some oid, toAddress := none, parcel := parcel,
          carrier := carrier }) ∧
    (resolveOrder oid = Except.ok a →
      ∀ ps st',
        createShipment resolveOrder apiCreate now file
          { orderId := some oid, toAddress := addr, parcel := parcel,
            carrier := carrier } = (Except.ok ps, st') →
        ps.toAddress = a) ∧
    (createShipment resolveOrder apiCreate now file
        { orderId := none, toAddress := none, parcel := parcel,
          carrier := carrier } =
      (Except.error eitherRequiredMsg, file)) ∧
    (∀ a0,
      (createShipment resolveOrder apiCreate now file
        { orderId := none, toAddress := some a0, parcel := parcel,
          carrier := carrier }).1 ≠ Except.error eitherRequiredMsg) := by
  have hro : ∀ addr2 : Option Address,
      resolveToAddress resolveOrder
        { orderId := some oid, toAddress := addr2, parcel := parcel,
          carrier := carrier } = resolveOrder oid :=
    fun addr2 => resolveToAddress_orderId resolveOrder _ oid rfl hcne
  refine ⟨?_, ?_, rfl, ?_⟩
  · cases hres : resolveOrder oid with
    | error e =>
      rw [createShipment_resolveErr resolveOrder apiCreate now file _ e
          ((hro addr).trans hres),
        createShipment_resolveErr resolveOrder apiCreate now file _ e
          ((hro none).trans hres)]
    | ok a2 =>
      by_cases hempty : processRates carrier
          (apiCreate (apiParcelParams parcel)).rates = []
      · rw [createShipment_noRates resolveOrder apiCreate now file _ a2
            ((hro addr).trans hres) hempty,
          createShipment_noRates resolveOrder apiCreate now file _ a2
            ((hro none).trans hres) hempty]
      · rw [createShipment_success resolveOrder apiCreate now file _ a2
            ((hro addr).trans hres) hempty,
          createShipment_success resolveOrder apiCreate now file _ a2
            ((hro none).trans hres) hempty]
        rfl
  · intro hres ps st' h
    obtain ⟨a', hres', _, hps⟩ :=
      createShipment_ok_inv resolveOrder apiCreate now file _ ps (by rw [h])
    have ha : Except.ok (ε := String) a = Except.ok a' := by
      rw [← hres, ← hro addr]
      exact hres'
    subst hps
    simp only [Except.ok.injEq] at ha
    rw [← ha]
    rfl
  · intro a0 h
    by_cases hempty : processRates carrier
        (apiCreate (apiParcelParams parcel)).rates = []
    · rw [createShipment_noRates resolveOrder apiCreate now file
        { orderId := none, toAddress := some a0, parcel := parcel,
          carrier := carrier } a0 rfl hempty] at h
      exact absurd (by simpa using h) (by decide)
    · rw [createShipment_success resolveOrder apiCreate now file
        { orderId := none, toAddress := some a0, parcel := parcel,
          carrier := carrier } a0 rfl hempty] at h
      simp at h

/-- Witness for C10 at a concrete resolver, a non-empty order id and a
concurrently supplied explicit address. -/
theorem c10_orderId_precedence_witness :
    (createShipment exResolver exApiCreate "t0" none
        { orderId := some "ord_1", toAddress := some exAddr,
          parcel := exParcel, carrier := none } =
      createShipment exResolver exApiCreate "t0" none
        { orderId := some "ord_1", toAddress := none, parcel := exParcel,
          carrier := none }) ∧
    (createdShipmentRecord exApiCreate "t0"
        { orderId := some "ord_1", toAddress := some exAddr,
          parcel := exParcel, carrier := none } exAddr).toAddress = exAddr ∧
    (createShipment exResolver exApiCreate "t0" none
        { orderId := none, toAddress := none, parcel := exParcel,
          carrier := none } = (Except.error eitherRequiredMsg, none)) := by
  have h := c10_orderId_precedence exResolver exApiCreate "t0" none exParcel
    none "ord_1" (some exAddr) exAddr (by decide)
  have hne : processRates (none : Option String)
      (exApiCreate (apiParcelParams exParcel)).rates ≠ [] := by
    simp only [processRates, Ne, sortB_eq_nil_iff]
    simp [exApiCreate, carrierMatches]
  refine ⟨h.1, ?_, h.2.2.1⟩
  exact h.2.1 rfl _ _
    (createShipment_success exResolver exApiCreate "t0" none _ exAddr
      (by decide) hne)

/-- C4: `buyLabel` is not idempotent — on a stored record already
`purchased` it fails with the already-purchased error whose message ends
in the recorded tracking code and leaves the store untouched; after a
successful purchase, a second call with the same identifiers fails the
same way, referencing the first call's tracking code. -/
theorem c4_buyLabel_not_idempotent (buy buy2 : Except String BuyResponse)
    (now now2 : String) (file : StoreFile) (sid rid : String) :
    (∀ ps, recLookup (loadState now file).shipments sid = some ps →
      ps.status = ShipStatus.purchased →
      buyLabel buy now file sid rid =
        (Except.error (alreadyPurchasedMsg sid ps.trackingCode), file) ∧
      ∀ t, ps.trackingCode = some t →
        ∃ pre, alreadyPurchasedMsg sid ps.trackingCode = pre ++ t) ∧
    (∀ label file2, buyLabel buy now file sid rid = (Except.ok label, file2) →
      buyLabel buy2 now2 file2 sid rid =
        (Except.error (alreadyPurchasedMsg sid (some label.trackingCode)),
          file2) ∧
      ∃ pre, alreadyPurchasedMsg sid (some label.trackingCode) =
        pre ++ label.trackingCode) := by
  constructor
  · intro ps hps hst
    refine ⟨buyLabel_alreadyPurchased_eq buy now file sid rid ps hps hst, ?_⟩
    intro t ht
    refine ⟨"Shipment " ++ sid ++ " already purchased. Tracking: ", ?_⟩
    rw [ht]
    rfl
  · intro label file2 h
    obtain ⟨ps, rate, resp, hl, hst, hf, hbuy, hlabel, hfile2⟩ :=
      buyLabel_ok_inv buy now file sid rid label file2 h
    have hlook2 : recLookup (loadState now2 file2).shipments sid =
        some { ps with
          status := ShipStatus.purchased
          trackingCode := some resp.tracking_code
          labelUrl := resp.label_url } := by
      rw [hfile2, loadState_saveState]
      exact recLookup_recInsert_self _ _ _
    have h2 := buyLabel_alreadyPurchased_eq buy2 now2 file2 sid rid _ hlook2 rfl
    subst hlabel
    exact ⟨h2, "Shipment " ++ sid ++ " already purchased. Tracking: ", rfl⟩

/-- Witness for C4: buying the purchased record again fails with the
tracking code in the message; a concrete successful purchase followed by
a repeat call fails the same way. -/
theorem c4_buyLabel_not_idempotent_witness :
    buyLabel (Except.ok exBuyResp) "t2" exFilePurchased "shp_1" "rate_a" =
      (Except.error (alreadyPurchasedMsg "shp_1" (some "TRACK123")),
        exFilePurchased) ∧
    (∃ pre, alreadyPurchasedMsg "shp_1" (some "TRACK123") =
      pre ++ "TRACK123") ∧
    buyLabel (Except.ok exBuyResp) "t1" exFilePending "shp_1" "rate_a" =
      (Except.ok exLabel, exFilePurchased) ∧
    buyLabel (Except.ok exBuyResp) "t2" exFilePurchased "shp_1" "rate_a" =
      (Except.error (alreadyPurchasedMsg "shp_1" (some exLabel.trackingCode)),
        exFilePurchased) := by
  have hfirst : buyLabel (Except.ok exBuyResp) "t1" exFilePending "shp_1"
      "rate_a" = (Except.ok exLabel, exFilePurchased) := by decide
  refine ⟨?_, ?_, hfirst, ?_⟩
  · exact ((c4_buyLabel_not_idempotent (Except.ok exBuyResp)
      (Except.ok exBuyResp) "t2" "t2" exFilePurchased "shp_1" "rate_a").1
      exPurchasedRec (by decide) (by decide)).1
  · exact ((c4_buyLabel_not_idempotent (Except.ok exBuyResp)
      (Except.ok exBuyResp) "t2" "t2" exFilePurchased "shp_1" "rate_a").1
      exPurchasedRec (by decide) (by decide)).2 "TRACK123" (by decide)
  · exact ((c4_buyLabel_not_idempotent (Except.ok exBuyResp)
      (Except.ok exBuyResp) "t1" "t2" exFilePending "shp_1" "rate_a").2
      exLabel exFilePurchased hfirst).1

/-- C5: `buyLabel` with a rate id matching none of the stored rates (on
a not-yet-purchased record) fails with the rate-not-found error whose
message ends in the comma-joined list of the stored rate ids, does not
modify the store, and does not depend on the external purchase
endpoint's response. -/
theorem c5_buyLabel_rateNotFound (buy buy2 : Except String BuyResponse)
    (now : String) (file : StoreFile) (sid rid : String)
    (ps : PendingShipment)
    (hps : recLookup (loadState now file).shipments sid = some ps)
    (hnp : ps.status ≠ ShipStatus.purchased)
    (hmiss : ∀ r ∈ ps.rates, r.id ≠ rid) :
    buyLabel buy now file sid rid =
      (Except.error (rateNotFoundMsg rid sid (ps.rates.map (fun r => r.id))),
        file) ∧
    buyLabel buy now file sid rid = buyLabel buy2 now file sid rid ∧
    ∃ pre, rateNotFoundMsg rid sid (ps.rates.map (fun r => r.id)) =
      pre ++ String.intercalate ", " (ps.rates.map (fun r => r.id)) := by
  have hfind : ps.rates.find? (fun r => r.id == rid) = none :=
    List.find?_eq_none.mpr (fun r hr => by simpa using hmiss r hr)
  have h1 := buyLabel_rateMissing_eq buy now file sid rid ps hps hnp hfind
  have h2 := buyLabel_rateMissing_eq buy2 now file sid rid ps hps hnp hfind
  exact ⟨h1, h1.trans h2.symm,
    "Rate " ++ rid ++ " not found for shipment " ++ sid ++
      ". Available rates: ", rfl⟩

/-- Witness for C5: unknown rate id `"rate_zz"` on the pending record. -/
theorem c5_buyLabel_rateNotFound_witness :
    buyLabel (Except.ok exBuyResp) "t1" exFilePending "shp_1" "rate_zz" =
      (Except.error (rateNotFoundMsg "rate_zz" "shp_1" ["rate_a", "rate_b"]),
        exFilePending) ∧
    buyLabel (Except.ok exBuyResp) "t1" exFilePending "shp_1" "rate_zz" =
      buyLabel (Except.error "net down") "t1" exFilePending "shp_1"
        "rate_zz" ∧
    ∃ pre, rateNotFoundMsg "rate_zz" "shp_1" ["rate_a", "rate_b"] =
      pre ++ String.intercalate ", " ["rate_a", "rate_b"] :=
  c5_buyLabel_rateNotFound (Except.ok exBuyResp) (Except.error "net down")
    "t1" exFilePending "shp_1" "rate_zz" exPendingRec (by decide) (by decide)
    (by decide)

/-- C6: `cancelShipment` never raises (it is a total function into a
structured result): an absent or purchased record yields success=false
with the store untouched (a purchased record keeps its status), a
pending record is deleted with success=true and a later `getRates` on
that identifier fails with the not-found error. -/
theorem c6_cancelShipment_contract (now now2 : String) (file : StoreFile)
    (sid : String) :
    (recLookup (loadState now file).shipments sid = none →
      cancelShipment now file sid =
        ({ success := false, message := "Shipment " ++ sid ++ " not found" },
          file)) ∧
    (∀ ps, recLookup (loadState now file).shipments sid = some ps →
      ps.status = ShipStatus.purchased →
      cancelShipment now file sid =
        ({ success := false
           message := "Cannot cancel purchased shipment. Use void-label to request refund." },
          file) ∧
      statusAt now (cancelShipment now file sid).2 sid =
        some ShipStatus.purchased) ∧
    (∀ ps, recLookup (loadState now file).shipments sid = some ps →
      ps.status = ShipStatus.pending →
      (cancelShipment now file sid).1 =
        { success := true
          message := "Shipment cancelled. No charges incurred." } ∧
      recLookup (loadState now2 (cancelShipment now file sid).2).shipments
        sid = none ∧
      getRates now2 (cancelShipment now file sid).2 sid =
        Except.error (getRatesNotFoundMsg sid)) := by
  refine ⟨?_, ?_, ?_⟩
  · intro h
    exact cancelShipment_notFound_eq now file sid h
  · intro ps hps hst
    have h := cancelShipment_purchased_eq now file sid ps hps hst
    refine ⟨h, ?_⟩
    rw [h]
    simp only [statusAt, hps]
    simp [hst]
  · intro ps hps hst
    have hnp : ps.status ≠ ShipStatus.purchased := by
      rw [hst]
      decide
    have h := cancelShipment_deletes_eq now file sid ps hps hnp
    have hgone : recLookup
        (loadState now2 (cancelShipment now file sid).2).shipments sid =
        none := by
      rw [h, loadState_saveState]
      exact recLookup_recErase_self _ _
    refine ⟨by rw [h], hgone, ?_⟩
    simp only [getRates, hgone]

/-- Witness for C6 on the concrete pending and purchased stores. -/
theorem c6_cancelShipment_contract_witness :
    cancelShipment "t1" exFilePurchased "shp_1" =
      ({ success := false
         message := "Cannot cancel purchased shipment. Use void-label to request refund." },
        exFilePurchased) ∧
    statusAt "t1" (cancelShipment "t1" exFilePurchased "shp_1").2 "shp_1" =
      some ShipStatus.purchased ∧
    (cancelShipment "t1" exFilePending "shp_1").1 =
      { success := true
        message := "Shipment cancelled. No charges incurred." } ∧
    getRates "t2" (cancelShipment "t1" exFilePending "shp_1").2 "shp_1" =
      Except.error (getRatesNotFoundMsg "shp_1") ∧
    cancelShipment "t1" exFilePurchased "missing" =
      ({ success := false, message := "Shipment " ++ "missing" ++ " not found" },
        exFilePurchased) := by
  have h1 := (c6_cancelShipment_contract "t1" "t2" exFilePurchased "shp_1").2.1
    exPurchasedRec (by decide) (by decide)
  have h2 := (c6_cancelShipment_contract "t1" "t2" exFilePending "shp_1").2.2
    exPendingRec (by decide) (by decide)
  have h3 := (c6_cancelShipment_contract "t1" "t2" exFilePurchased "missing").1
    (by decide)
  exact ⟨h1.1, h1.2, h2.1, h2.2.2, h3⟩

/-- C7: `voidLabel` never raises (it is a total function into a
structured result): a failed refund yields success=false with a message
and an untouched store; a successful refund yields success=true, marking
an existing record voided, and still succeeds with the store untouched
when no record exists. -/
theorem c7_voidLabel_contract (refund : RefundResponse) (e now now2 : String)
    (file : StoreFile) (sid : String) :
    (voidLabel (Except.error e) now file sid =
      ({ success := false, message := "Void failed: " ++ e }, file)) ∧
    (∀ s, recLookup (loadState now file).shipments sid = some s →
      (voidLabel (Except.ok refund) now file sid).1 =
        { success := true
          message := "Refund requested. Status: " ++
            refundStatusText refund.status } ∧
      recLookup
        (loadState now2 (voidLabel (Except.ok refund) now file sid).2).shipments
        sid = some { s with status := ShipStatus.voided }) ∧
    (recLookup (loadState now file).shipments sid = none →
      voidLabel (Except.ok refund) now file sid =
        ({ success := true
           message := "Refund requested. Status: " ++
             refundStatusText refund.status }, file)) := by
  refine ⟨voidLabel_refundErr_eq e now file sid, ?_, ?_⟩
  · intro s hs
    have h := voidLabel_found_eq refund now file sid s hs
    refine ⟨by rw [h], ?_⟩
    rw [h, loadState_saveState]
    exact recLookup_recInsert_self _ _ _
  · intro h
    exact voidLabel_absent_eq refund now file sid h

/-- Witness for C7 on the concrete stores. -/
theorem c7_voidLabel_contract_witness :
    voidLabel (Except.error "insufficient funds") "t2" exFilePurchased
      "shp_1" =
      ({ success := false
         message := "Void failed: " ++ "insufficient funds" },
        exFilePurchased) ∧
    (voidLabel (Except.ok exRefund) "t2" exFilePurchased "shp_1").1 =
      { success := true
        message := "Refund requested. Status: " ++
          refundStatusText exRefund.status } ∧
    recLookup
      (loadState "t3"
        (voidLabel (Except.ok exRefund) "t2" exFilePurchased "shp_1").2).shipments
      "shp_1" = some { exPurchasedRec with status := ShipStatus.voided } ∧
    voidLabel (Except.ok exRefund) "t2" exFilePurchased "missing" =
      ({ success := true
         message := "Refund requested. Status: " ++
           refundStatusText exRefund.status }, exFilePurchased) := by
  have h := c7_voidLabel_contract exRefund "insufficient funds" "t2" "t3"
    exFilePurchased "shp_1"
  have h2 := h.2.1 exPurchasedRec (by decide)
  have h3 := (c7_voidLabel_contract exRefund "insufficient funds" "t2" "t3"
    exFilePurchased "missing").2.2 (by decide)
  exact ⟨h.1, h2.1, h2.2, h3⟩

/-- C8: the parcel values handed to the external rate-shopping API are
the canonical values converted with the fixed factors
kg × 35.274 → ounces and (present, positive) cm × 0.3937 → inches,
while on success the persisted record keeps the caller's canonical
parcel unconverted. -/
theorem c8_unit_conversion (resolveOrder : String → Except String Address)
    (apiCreate : ApiParcel → EPShipmentResponse) (now : String)
    (file : StoreFile) (options : CreateShipmentOptions)
    (ps : PendingShipment) (st' : StoreFile)
    (hl : ∀ v, options.parcel.length = some v → 0 < v)
    (hw : ∀ v, options.parcel.width = some v → 0 < v)
    (hh : ∀ v, options.parcel.height = some v → 0 < v) :
    apiParcelParams options.parcel =
      { weight := options.parcel.weight * (35274 / 1000)
        length := options.parcel.length.map (fun v => v * (3937 / 10000))
        width := options.parcel.width.map (fun v => v * (3937 / 10000))
        height := options.parcel.height.map (fun v => v * (3937 / 10000)) } ∧
    (createShipment resolveOrder apiCreate now file options =
        (Except.ok ps, st') →
      ps.parcel = options.parcel ∧
      recLookup (loadState now st').shipments
        (apiCreate (apiParcelParams options.parcel)).id = some ps) := by
  constructor
  · have hdim : ∀ (d : Option ℚ), (∀ v, d = some v → 0 < v) →
        (truthyDim d).map cmToInches = d.map (fun v => v * (3937 / 10000)) := by
      intro d hd
      cases d with
      | none => rfl
      | some v =>
        have : ¬ v = 0 := by
          intro hv
          exact absurd (hd v rfl) (by rw [hv]; exact lt_irrefl 0)
        simp [truthyDim, this, cmToInches]
    simp only [apiParcelParams, kgToOunces, hdim options.parcel.length hl,
      hdim options.parcel.width hw, hdim options.parcel.height hh]
  · intro h
    obtain ⟨a, hres, hne, hps⟩ :=
      createShipment_ok_inv resolveOrder apiCreate now file options ps
        (by rw [h])
    have hfull := createShipment_success resolveOrder apiCreate now file
      options a hres hne
    rw [hfull] at h
    have hst : st' = saveState now
        { loadState now file with
          shipments := recInsert (loadState now file).shipments
            (apiCreate (apiParcelParams options.parcel)).id
            (createdShipmentRecord apiCreate now options a) } := by
      have := congrArg Prod.snd h
      simpa using this.symm
    subst hps
    subst hst
    rw [loadState_saveState]
    exact ⟨rfl, recLookup_recInsert_self _ _ _⟩

/-- Witness for C8 at the dimensionless 15 kg parcel. -/
theorem c8_unit_conversion_witness :
    apiParcelParams exOptions.parcel =
      { weight := exOptions.parcel.weight * (35274 / 1000)
        length := exOptions.parcel.length.map (fun v => v * (3937 / 10000))
        width := exOptions.parcel.width.map (fun v => v * (3937 / 10000))
        height := exOptions.parcel.height.map
          (fun v => v * (3937 / 10000)) } ∧
    (createdShipmentRecord exApiCreate "t0" exOptions exAddr).parcel =
      exOptions.parcel := by
  have hne : processRates exOptions.carrier
      (exApiCreate (apiParcelParams exOptions.parcel)).rates ≠ [] := by
    simp only [processRates, Ne, sortB_eq_nil_iff]
    simp [exApiCreate, exOptions, carrierMatches]
  have h := c8_unit_conversion exResolver exApiCreate "t0" none exOptions
    (createdShipmentRecord exApiCreate "t0" exOptions exAddr)
    (saveState "t0"
      { loadState "t0" none with
        shipments := recInsert (loadState "t0" none).shipments
          (exApiCreate (apiParcelParams exOptions.parcel)).id
          (createdShipmentRecord exApiCreate "t0" exOptions exAddr) })
    (by intro v hv; simp [exOptions, exParcel] at hv)
    (by intro v hv; simp [exOptions, exParcel] at hv)
    (by intro v hv; simp [exOptions, exParcel] at hv)
  exact ⟨h.1,
    (h.2 (createShipment_success exResolver exApiCreate "t0" none exOptions
      exAddr rfl hne)).1⟩

/-- Any no-op on the store is an allowed transition. -/
theorem codeAllowed_refl (a : Option ShipStatus) : codeAllowed a a = true := by
  cases a with
  | none => decide
  | some s => cases s <;> decide

/-- C1 counterexample: on a store holding a pending record, a successful
`voidLabel` moves the record's status pending → voided, a transition
outside the claimed set {pending → purchased, pending → absent,
purchased → voided}. -/
theorem c1_transitions_counterexample :
    statusAt "t0" exFilePending "shp_1" = some ShipStatus.pending ∧
    statusAt "t1"
      (voidLabel (Except.ok exRefund) "t1" exFilePending "shp_1").2
      "shp_1" = some ShipStatus.voided ∧
    specAllowed (some ShipStatus.pending) (some ShipStatus.voided) = false := by
  decide

/-- C1 (amended): every mutating workflow operation moves the status
stored at any key only along the claimed transitions (no change, fresh
creation as pending, pending → purchased, pending → absent,
purchased → voided) or the three additional ones the code performs:
pending → voided (`voidLabel` voids any existing record),
voided → purchased (`buyLabel` only rejects purchased records), and
voided → absent (`cancelShipment` only rejects purchased records).
Freshness of the id returned by the external creation endpoint is
assumed, as carrier-assigned ids are globally unique. -/
theorem c1_workflow_transitions_amended
    (resolveOrder : String → Except String Address)
    (apiCreate : ApiParcel → EPShipmentResponse)
    (buy : Except String BuyResponse) (refund : Except String RefundResponse)
    (now : String) (file : StoreFile) (options : CreateShipmentOptions)
    (sid rid k : String)
    (hfresh : recLookup (loadState now file).shipments
      (apiCreate (apiParcelParams options.parcel)).id = none) :
    codeAllowed (statusAt now file k)
      (statusAt now
        (createShipment resolveOrder apiCreate now file options).2 k) = true ∧
    codeAllowed (statusAt now file k)
      (statusAt now (buyLabel buy now file sid rid).2 k) = true ∧
    codeAllowed (statusAt now file k)
      (statusAt now (cancelShipment now file sid).2 k) = true ∧
    codeAllowed (statusAt now file k)
      (statusAt now (voidLabel refund now file sid).2 k) = true := by
  refine ⟨?_, ?_, ?_, ?_⟩
  · cases hres : resolveToAddress resolveOrder options with
    | error e =>
      rw [createShipment_resolveErr _ _ _ _ _ _ hres]
      exact codeAllowed_refl _
    | ok a =>
      by_cases hempty : processRates options.carrier
          (apiCreate (apiParcelParams options.parcel)).rates = []
      · rw [createShipment_noRates _ _ _ _ _ a hres hempty]
        exact codeAllowed_refl _
      · rw [createShipment_success _ _ _ _ _ a hres hempty]
        by_cases hk : k = (apiCreate (apiParcelParams options.parcel)).id
        · subst hk
          simp only [statusAt, loadState_saveState]
          rw [hfresh, recLookup_recInsert_self]
          exact (by decide :
            codeAllowed none (some ShipStatus.pending) = true)
        · simp only [statusAt, loadState_saveState]
          rw [recLookup_recInsert_ne _ _ _ _ hk]
          exact codeAllowed_refl _
  · cases hl : recLookup (loadState now file).shipments sid with
    | none =>
      rw [buyLabel_notFound_eq _ _ _ _ _ hl]
      exact codeAllowed_refl _
    | some ps =>
      by_cases hst : ps.status = ShipStatus.purchased
      · rw [buyLabel_alreadyPurchased_eq _ _ _ _ _ _ hl hst]
        exact codeAllowed_refl _
      · cases hf : ps.rates.find? (fun r => r.id == rid) with
        | none =>
          rw [buyLabel_rateMissing_eq _ _ _ _ _ _ hl hst hf]
          exact codeAllowed_refl _
        | some rate =>
          cases buy with
          | error e =>
            rw [buyLabel_buyErr_eq e _ _ _ _ (ps, rate) hl hst hf]
            exact codeAllowed_refl _
          | ok resp =>
            rw [buyLabel_success_eq _ _ _ _ _ _ _ hl hst hf]
            by_cases hk : k = sid
            · subst hk
              simp only [statusAt, loadState_saveState]
              rw [hl, recLookup_recInsert_self]
              cases hsv : ps.status with
              | pending => simp [hsv]; decide
              | purchased => exact absurd hsv hst
              | voided => simp [hsv]; decide
            · simp only [statusAt, loadState_saveState]
              rw [recLookup_recInsert_ne _ _ _ _ hk]
              exact codeAllowed_refl _
  · cases hl : recLookup (loadState now file).shipments sid with
    | none =>
      rw [cancelShipment_notFound_eq _ _ _ hl]
      exact codeAllowed_refl _
    | some ps =>
      by_cases hst : ps.status = ShipStatus.purchased
      · rw [cancelShipment_purchased_eq _ _ _ _ hl hst]
        exact codeAllowed_refl _
      · rw [cancelShipment_deletes_eq _ _ _ _ hl hst]
        by_cases hk : k = sid
        · subst hk
          simp only [statusAt, loadState_saveState]
          rw [hl, recLookup_recErase_self]
          cases hsv : ps.status with
          | pending => simp [hsv]; decide
          | purchased => exact absurd hsv hst
          | voided => simp [hsv]; decide
        · simp only [statusAt, loadState_saveState]
          rw [recLookup_recErase_ne _ _ _ hk]
          exact codeAllowed_refl _
  · cases refund with
    | error e =>
      rw [voidLabel_refundErr_eq]
      exact codeAllowed_refl _
    | ok r =>
      cases hl : recLookup (loadState now file).shipments sid with
      | none =>
        rw [voidLabel_absent_eq _ _ _ _ hl]
        exact codeAllowed_refl _
      | some s =>
        rw [voidLabel_found_eq _ _ _ _ _ hl]
        by_cases hk : k = sid
        · subst hk
          simp only [statusAt, loadState_saveState]
          rw [hl, recLookup_recInsert_self]
          cases hsv : s.status with
          | pending => simp [hsv]; decide
          | purchased => simp [hsv]; decide
          | voided => simp [hsv]; decide
        · simp only [statusAt, loadState_saveState]
          rw [recLookup_recInsert_ne _ _ _ _ hk]
          exact codeAllowed_refl _

/-- Witness for the amended C1 on an empty store with a fresh id. -/
theorem c1_workflow_transitions_amended_witness :
    codeAllowed (statusAt "t0" (none : StoreFile) "shp_1")
      (statusAt "t0"
        (createShipment exResolver exApiCreate "t0" none exOptions).2
        "shp_1") = true ∧
    codeAllowed (statusAt "t0" (none : StoreFile) "shp_1")
      (statusAt "t0"
        (buyLabel (Except.ok exBuyResp) "t0" none "shp_1" "rate_a").2
        "shp_1") = true ∧
    codeAllowed (statusAt "t0" (none : StoreFile) "shp_1")
      (statusAt "t0" (cancelShipment "t0" none "shp_1").2 "shp_1") = true ∧
    codeAllowed (statusAt "t0" (none : StoreFile) "shp_1")
      (statusAt "t0"
        (voidLabel (Except.ok exRefund) "t0" none "shp_1").2 "shp_1") =
      true :=
  c1_workflow_transitions_amended exResolver exApiCreate
    (Except.ok exBuyResp) (Except.ok exRefund) "t0" none exOptions
    "shp_1" "rate_a" "shp_1" (by decide)
